import Mathlib

/-!
Verification of the predict-serve pipeline of the mental-health-lifestyle
repository (src/serve.py and src/predict.py), shallowly embedded in Lean.

Modelling conventions:
* A JSON value is a string, an (idealized, rational) number, or an integer.
* A feature record / JSON object is an association list of key-value pairs,
  mirroring a Python dict in insertion order.
* The pickled artifact (fitted model plus DictVectorizer, external sklearn
  objects not present in the repository) is abstracted as a pair of fallible
  functions: the vectorizer transform and the model scoring function
  predict_proba restricted to the positive-class entry.  A Python exception
  with message e is modelled as Except.error e.
* Flask request.get_json() yielding no usable object - body absent or
  unparseable - is modelled as the handler receiving none.
* The lazy-loading handler state (the attributes predict.model / predict.dv
  set by the first successful load) is a ServerState holding an optional
  cached artifact.  load_artifact() reading MODEL_PATH is modelled by an
  environment-supplied Except String Artifact per request.
* An exception escaping the handler uncaught (hence handled by the framework,
  not by the handler code) is the HandlerOutcome.exception constructor.
-/

namespace MentalHealth

/-- A JSON scalar value appearing in requests and responses. -/
inductive JVal where
  | jstr (s : String)
  | jnum (q : ℚ)
  | jint (n : ℤ)
deriving DecidableEq, Repr

/-- A JSON object: association list of field name and value, in insertion
order, mirroring a Python dict. -/
abbrev JObj := List (String × JVal)

/-- Python truthiness of a dict: `not data` is true exactly when the dict is
empty, so a dict is truthy iff it is non-empty. -/
def pyTruthy (d : JObj) : Bool := !d.isEmpty

/-- The deserialized artifact bundle: the fitted DictVectorizer transform
(dv.transform([data]) producing one feature vector) and the model scoring
function (model.predict_proba(X)[0, 1], the positive-class probability).
Either may raise; a raised exception with message e is Except.error e. -/
structure Artifact where
  transform : JObj → Except String (List ℚ)
  predictProba : List ℚ → Except String ℚ

/-- Python round-half-to-even on an exact rational, as round() behaves on an
idealized decimal value: nearest integer, ties to the even integer. -/
def pyRound (x : ℚ) : ℤ :=
  if x - ⌊x⌋ < 1/2 then ⌊x⌋
  else if 1/2 < x - ⌊x⌋ then ⌊x⌋ + 1
  else if ⌊x⌋ % 2 = 0 then ⌊x⌋ else ⌊x⌋ + 1

/-- round(x, 4): rounding to 4 decimal places. -/
def round4 (x : ℚ) : ℚ := (pyRound (x * 10000) : ℚ) / 10000

/-- The probability computed inside the try-block of both pipelines:
X = dv.transform([data]); prob = model.predict_proba(X)[0, 1].  An exception
raised by either step propagates with its message. -/
def pipelineProb (art : Artifact) (d : JObj) : Except String ℚ :=
  match art.transform d with
  | .error e => .error e
  | .ok X =>
      match art.predictProba X with
      | .error e => .error e
      | .ok q => .ok q

/-- Result of predict.py's standalone predict(): the dict with keys
probability (the unrounded positive-class probability) and prediction. -/
structure PredictResult where
  probability : ℚ
  prediction : ℤ
deriving DecidableEq, Repr

/-- predict.py predict(features): loads the artifact (load_artifacts(), whose
outcome is the loadResult argument), transforms, scores, thresholds at 0.5.
No exception handling: any failure propagates as Except.error. -/
def predictStandalone (loadResult : Except String Artifact) (features : JObj) :
    Except String PredictResult :=
  match loadResult with
  | .error e => .error e
  | .ok art =>
      match pipelineProb art features with
      | .error e => .error e
      | .ok prob => .ok ⟨prob, if 1/2 ≤ prob then 1 else 0⟩

/-- What a request handler produces: an HTTP response with a status code and
a JSON object body, or an exception escaping the handler uncaught. -/
inductive HandlerOutcome where
  | response (status : ℕ) (body : JObj)
  | exception (msg : String)
deriving DecidableEq, Repr

/-- Process-wide lazy-loading state of serve.py: the cached model and
vectorizer (attributes predict.model / predict.dv), absent until the first
successful load_artifact() call. -/
structure ServerState where
  cached : Option Artifact

/-- State at process start: nothing loaded. -/
def initialState : ServerState := ⟨none⟩

/-- One handled request, instrumented: the outcome, the state left behind,
whether load_artifact() was called, whether it succeeded, and whether the
vectorizer/model were invoked (the try-block entered). -/
structure HandlerTrace where
  outcome : HandlerOutcome
  state' : ServerState
  loadAttempted : Bool
  loadSucceeded : Bool
  modelInvoked : Bool

/-- The try-block of serve.py's predict handler, given a loaded artifact:
transform and score, threshold at 0.5, round the probability to 4 decimals;
any exception is caught and returned as a 500 with the exception message. -/
def scoreRequest (art : Artifact) (d : JObj) : HandlerOutcome :=
  match pipelineProb art d with
  | .error e => .response 500 [("error", JVal.jstr e)]
  | .ok prob =>
      .response 200 [("probability", JVal.jnum (round4 prob)),
                     ("prediction", JVal.jint (if 1/2 ≤ prob then 1 else 0))]

/-- serve.py's POST /predict handler.  data is the result of
request.get_json() (none when the body is absent or unparseable); a falsy
payload gets the 400 error; then the artifact is lazily loaded if the cache
is empty (a load failure escapes the handler uncaught, since the load sits
before the try-block); finally the try-block scores the record. -/
def predictHandler (loadResult : Except String Artifact) (s : ServerState)
    (data : Option JObj) : HandlerTrace :=
  match data with
  | none =>
      ⟨.response 400 [("error", JVal.jstr "No input data provided")],
        s, false, false, false⟩
  | some d =>
      if pyTruthy d = false then
        ⟨.response 400 [("error", JVal.jstr "No input data provided")],
          s, false, false, false⟩
      else
        match s.cached with
        | some art => ⟨scoreRequest art d, s, false, false, true⟩
        | none =>
            match loadResult with
            | .error msg => ⟨.exception msg, s, true, false, false⟩
            | .ok art =>
                ⟨scoreRequest art d, ⟨some art⟩, true, true, true⟩

/-- serve.py's GET /health handler: a constant body, no state access. -/
def healthHandler (s : ServerState) : HandlerTrace :=
  ⟨.response 200 [("status", JVal.jstr "OK")], s, false, false, false⟩

/-- serve.py's GET / handler. -/
def rootHandler (s : ServerState) : HandlerTrace :=
  ⟨.response 200
      [("status", JVal.jstr "OK"),
       ("service", JVal.jstr "Global Mental Health & Lifestyle Predictor")],
    s, false, false, false⟩

/-- A request reaching the serving process. -/
inductive Request where
  | getRoot
  | getHealth
  | postPredict (body : Option JObj)

/-- Dispatch one request against the current state, in the environment where
load_artifact() would produce lr. -/
def stepServer (lr : Except String Artifact) (s : ServerState) (r : Request) :
    HandlerTrace :=
  match r with
  | .getRoot => rootHandler s
  | .getHealth => healthHandler s
  | .postPredict body => predictHandler lr s body

/-- One step of a request sequence: the load environment at that time paired
with the request. -/
abbrev Step := Except String Artifact × Request

/-- Handle a sequence of requests, threading the lazy-loading state; returns
the traces in order and the final state. -/
def runServer (s : ServerState) : List Step → List HandlerTrace × ServerState
  | [] => ([], s)
  | p :: rest =>
      let t := stepServer p.1 s p.2
      let r := runServer t.state' rest
      (t :: r.1, r.2)

/-- A request that reaches the lazy-load step: POST /predict with a parsed,
truthy (non-empty) JSON object. -/
def qualifying : Request → Bool
  | .postPredict (some d) => pyTruthy d
  | _ => false

/-- Is an outcome a client-error (4xx) HTTP response. -/
def isClientError : HandlerOutcome → Bool
  | .response st _ => decide (400 ≤ st) && decide (st < 500)
  | .exception _ => false

/-- A concrete artifact whose scoring function always returns 0.49996, a
value inside the unit interval just below the decision threshold. -/
def cexArtifact : Artifact :=
  ⟨fun _ => .ok [1], fun _ => .ok (49996/100000)⟩

/-- A concrete artifact whose vectorizer transform raises with message
"boom" on every record. -/
def failArtifact : Artifact :=
  ⟨fun _ => .error "boom", fun _ => .ok 0⟩

/-- A concrete non-empty feature record. -/
def cexRecord : JObj := [("Age", JVal.jint 34)]

/-- A server state whose cache already holds cexArtifact. -/
def loadedState : ServerState := ⟨some cexArtifact⟩

/-- pyRound never goes below a lower integer bound of its argument. -/
theorem pyRound_nonneg (x : ℚ) (hx : 0 ≤ x) : 0 ≤ pyRound x := by
  have hf : (0 : ℤ) ≤ ⌊x⌋ := Int.floor_nonneg.mpr hx
  unfold pyRound
  split
  · exact hf
  · split
    · omega
    · split <;> omega

/-- pyRound never exceeds an integer upper bound of its argument. -/
theorem pyRound_le_of_le (x : ℚ) (B : ℤ) (hx : x ≤ B) : pyRound x ≤ B := by
  have hfl : ⌊x⌋ ≤ B := by
    have := Int.floor_le_floor hx
    simpa using this
  unfold pyRound
  split
  · exact hfl
  · rename_i h1
    push_neg at h1
    have hx2 : (⌊x⌋ : ℚ) + 1/2 ≤ x := by linarith
    have hxB : (⌊x⌋ : ℚ) < (B : ℚ) := by
      have : x ≤ (B : ℚ) := hx
      linarith
    have hlt : ⌊x⌋ < B := by exact_mod_cast hxB
    split
    · omega
    · split <;> omega

/-- Rounding to 4 decimals keeps a probability inside the unit interval. -/
theorem round4_mem_unit (q : ℚ) (h0 : 0 ≤ q) (h1 : q ≤ 1) :
    0 ≤ round4 q ∧ round4 q ≤ 1 := by
  have ha : (0 : ℚ) ≤ q * 10000 := by positivity
  have hb : q * 10000 ≤ ((10000 : ℤ) : ℚ) := by
    push_cast
    nlinarith
  have c1 : 0 ≤ pyRound (q * 10000) := pyRound_nonneg _ ha
  have c2 : pyRound (q * 10000) ≤ 10000 := pyRound_le_of_le _ 10000 hb
  unfold round4
  constructor
  · apply div_nonneg _ (by norm_num)
    exact_mod_cast c1
  · rw [div_le_one (by norm_num)]
    exact_mod_cast c2

/-- The try-block never produces a 4xx outcome: it yields 200 or 500. -/
theorem isClientError_scoreRequest (art : Artifact) (d : JObj) :
    isClientError (scoreRequest art d) = false := by
  unfold scoreRequest isClientError
  rcases pipelineProb art d with e | q <;> rfl

/-- Claim C2: a POST /predict request whose body is absent or unparseable
(get_json yields no usable object) returns the 400 error response, leaves
the state untouched, does not call load_artifact, and does not invoke the
vectorizer or the model. -/
theorem missing_body_client_error (lr : Except String Artifact) (s : ServerState) :
    predictHandler lr s none =
      ⟨.response 400 [("error", JVal.jstr "No input data provided")],
        s, false, false, false⟩ := rfl

/-- Claim C9: GET /health always returns status OK with an unchanged state,
whatever the load environment (artifact present, missing or corrupt) and
whatever the cache holds; it neither reads nor loads the artifact. -/
theorem health_always_ok (lr : Except String Artifact) (s : ServerState) :
    stepServer lr s .getHealth =
      ⟨.response 200 [("status", JVal.jstr "OK")], s, false, false, false⟩ := rfl

/-- Claim C7: with a fixed load environment and a fixed state, two runs of
the handler on the same parsed payload produce identical traces, and two
runs of the standalone predict on the same features produce identical
results: both pipelines are deterministic functions of their inputs. -/
theorem prediction_deterministic (lr : Except String Artifact) (s : ServerState)
    (d : Option JObj) (f : JObj) (t₁ t₂ : HandlerTrace)
    (r₁ r₂ : Except String PredictResult)
    (h₁ : t₁ = predictHandler lr s d) (h₂ : t₂ = predictHandler lr s d)
    (g₁ : r₁ = predictStandalone lr f) (g₂ : r₂ = predictStandalone lr f) :
    t₁ = t₂ ∧ r₁ = r₂ := by
  subst h₁
  subst h₂
  subst g₁
  subst g₂
  exact ⟨rfl, rfl⟩

/-- Witness for C7 at a concrete load result, state and record. -/
theorem prediction_deterministic_witness :
    predictHandler (.ok cexArtifact) initialState (some cexRecord) =
      predictHandler (.ok cexArtifact) initialState (some cexRecord) ∧
    predictStandalone (.ok cexArtifact) cexRecord =
      predictStandalone (.ok cexArtifact) cexRecord :=
  prediction_deterministic (.ok cexArtifact) initialState (some cexRecord)
    cexRecord _ _ _ _ rfl rfl rfl rfl

/-- Claim C1 counterexample: with a model whose scoring function returns
0.49996 (a value in the unit interval), the handler's successful response
carries probability 0.5 (the 4-decimal rounding) and prediction 0, so on
the returned result "prediction = 1 iff probability >= 0.5" is false. -/
theorem prediction_threshold_cex :
    (predictHandler (.ok cexArtifact) loadedState (some cexRecord)).outcome =
      .response 200 [("probability", JVal.jnum (1/2)),
                     ("prediction", JVal.jint 0)] ∧
    (0 : ℚ) ≤ 49996/100000 ∧ (49996/100000 : ℚ) ≤ 1 ∧
    ¬ (((0 : ℤ) = 1) ↔ ((1/2 : ℚ) ≥ 1/2)) := by
  refine ⟨?_, by norm_num, by norm_num, by norm_num⟩
  simp only [predictHandler, cexRecord, pyTruthy, loadedState, scoreRequest,
    pipelineProb, cexArtifact]
  norm_num [round4, pyRound]

/-- Claim C1 (amended): the prediction is in 0,1 and equals 1 iff the
model's unrounded positive-class probability is at least 0.5; the
standalone predict returns exactly that unrounded probability, so the iff
holds of its returned result; and when the scoring value lies in the unit
interval, so do the returned probabilities of both pipelines.  (On the
HTTP handler's returned result the iff is stated against the unrounded
probability: the returned field is its 4-decimal rounding, which can reach
0.5 while the prediction is 0.) -/
theorem prediction_threshold_amended (art : Artifact) (d : JObj) (q : ℚ)
    (s : ServerState) (lr : Except String Artifact)
    (hq : pipelineProb art d = .ok q)
    (hs : s.cached = some art) (hd : pyTruthy d = true) :
    (predictHandler lr s (some d)).outcome =
      .response 200 [("probability", JVal.jnum (round4 q)),
                     ("prediction", JVal.jint (if 1/2 ≤ q then 1 else 0))] ∧
    predictStandalone (.ok art) d = .ok ⟨q, if 1/2 ≤ q then 1 else 0⟩ ∧
    ((if 1/2 ≤ q then (1 : ℤ) else 0) = 1 ↔ 1/2 ≤ q) ∧
    ((if 1/2 ≤ q then (1 : ℤ) else 0) = 0 ∨ (if 1/2 ≤ q then (1 : ℤ) else 0) = 1) ∧
    (0 ≤ q → q ≤ 1 → (0 ≤ round4 q ∧ round4 q ≤ 1) ∧ (0 ≤ q ∧ q ≤ 1)) := by
  obtain ⟨c⟩ := s
  simp only at hs
  subst hs
  refine ⟨?_, ?_, ?_, ?_, ?_⟩
  · simp only [predictHandler, hd, Bool.true_eq_false, if_false, scoreRequest, hq]
  · simp only [predictStandalone, pipelineProb] at hq ⊢
    rw [hq]
  · by_cases hc : 1/2 ≤ q <;> simp [hc]
  · by_cases hc : 1/2 ≤ q
    · rw [if_pos hc]
      exact Or.inr rfl
    · rw [if_neg hc]
      exact Or.inl rfl
  · intro h0 h1
    exact ⟨round4_mem_unit q h0 h1, h0, h1⟩

/-- Witness for C1 (amended) at the concrete artifact and record. -/
theorem prediction_threshold_amended_witness :
    (predictHandler (.ok cexArtifact) loadedState (some cexRecord)).outcome =
      .response 200 [("probability", JVal.jnum (round4 (49996/100000))),
                     ("prediction",
                      JVal.jint (if 1/2 ≤ (49996/100000 : ℚ) then 1 else 0))] :=
  (prediction_threshold_amended cexArtifact cexRecord (49996/100000)
    loadedState (.ok cexArtifact) rfl rfl rfl).1

/-- Claim C3 counterexample: the empty JSON object is falsy in Python, so
the handler rejects it with the 400 client error and never reaches
vectorization or scoring, even with a loadable artifact available. -/
theorem empty_object_rejected_cex :
    predictHandler (.ok cexArtifact) initialState (some ([] : JObj)) =
      ⟨.response 400 [("error", JVal.jstr "No input data provided")],
        initialState, false, false, false⟩ ∧
    isClientError
      (predictHandler (.ok cexArtifact) initialState (some ([] : JObj))).outcome =
      true :=
  ⟨rfl, rfl⟩

/-- Claim C3 (amended): every non-empty JSON object payload is accepted -
the handler never answers it with a client-error (4xx) response, and it
proceeds to vectorization and scoring whenever an artifact is cached or
loadable - but the empty object, being falsy, is rejected with the same
400 error as a missing body, without touching the model. -/
theorem nonempty_accepted_empty_rejected (lr : Except String Artifact)
    (s : ServerState) (d : JObj) (hd : d ≠ []) :
    isClientError (predictHandler lr s (some d)).outcome = false ∧
    (∀ art, s.cached = some art →
      (predictHandler lr s (some d)).modelInvoked = true) ∧
    (∀ art, s.cached = none → lr = .ok art →
      (predictHandler lr s (some d)).modelInvoked = true) ∧
    predictHandler lr s (some ([] : JObj)) =
      ⟨.response 400 [("error", JVal.jstr "No input data provided")],
        s, false, false, false⟩ := by
  have hT : pyTruthy d = true := by
    cases d with
    | nil => exact absurd rfl hd
    | cons a l => rfl
  obtain ⟨c⟩ := s
  refine ⟨?_, ?_, ?_, rfl⟩
  · simp only [predictHandler, hT, Bool.true_eq_false, if_false]
    cases c with
    | some art => exact isClientError_scoreRequest art d
    | none =>
        cases lr with
        | error msg => rfl
        | ok art => exact isClientError_scoreRequest art d
  · intro art hart
    simp only at hart
    subst hart
    simp only [predictHandler, hT, Bool.true_eq_false, if_false]
  · intro art hnone hok
    simp only at hnone
    subst hnone
    subst hok
    simp only [predictHandler, hT, Bool.true_eq_false, if_false]

/-- Witness for C3 (amended) at a concrete non-empty record. -/
theorem nonempty_accepted_empty_rejected_witness :
    isClientError
      (predictHandler (.ok cexArtifact) initialState (some cexRecord)).outcome =
      false :=
  (nonempty_accepted_empty_rejected (.ok cexArtifact) initialState cexRecord
    (by simp [cexRecord])).1

/-- Claim C4 counterexample: when the first qualifying request is the one
whose vectorization raises, the handler still returns the 500 with the
exception message, but the cached artifact state is not unchanged: the
lazy load ran before the try-block, so the state goes from unloaded to
loaded during the failed request. -/
theorem processing_error_state_change_cex :
    (predictHandler (.ok failArtifact) initialState (some cexRecord)).outcome =
      .response 500 [("error", JVal.jstr "boom")] ∧
    initialState.cached = none ∧
    (predictHandler (.ok failArtifact) initialState (some cexRecord)).state'.cached ≠
      none := by
  refine ⟨rfl, rfl, ?_⟩
  simp [predictHandler, cexRecord, pyTruthy, initialState]

/-- Claim C4 (amended): when vectorization or scoring raises with message
e on a non-empty payload, the handler returns status 500 with the error
field exactly e and keeps serving; if the artifact was already cached the
whole state is unchanged, and if the failing request was the first one
(cache empty, load succeeding) the only state change is the load itself -
the cache now holds the loaded artifact, which serves later requests. -/
theorem processing_error_500 (art : Artifact) (d : JObj) (e : String)
    (lr : Except String Artifact) (s : ServerState)
    (he : pipelineProb art d = .error e) (hd : pyTruthy d = true) :
    (s.cached = some art →
      predictHandler lr s (some d) =
        ⟨.response 500 [("error", JVal.jstr e)], s, false, false, true⟩) ∧
    (s.cached = none → lr = .ok art →
      predictHandler lr s (some d) =
        ⟨.response 500 [("error", JVal.jstr e)], ⟨some art⟩, true, true, true⟩) := by
  constructor
  · intro hs
    obtain ⟨c⟩ := s
    simp only at hs
    subst hs
    simp only [predictHandler, hd, Bool.true_eq_false, if_false, scoreRequest, he]
  · intro hs hok
    obtain ⟨c⟩ := s
    simp only at hs
    subst hs
    subst hok
    simp only [predictHandler, hd, Bool.true_eq_false, if_false, scoreRequest, he]

/-- Witness for C4 (amended): the failing-transform artifact on the first
qualifying request. -/
theorem processing_error_500_witness :
    predictHandler (.ok failArtifact) initialState (some cexRecord) =
      ⟨.response 500 [("error", JVal.jstr "boom")],
        ⟨some failArtifact⟩, true, true, true⟩ :=
  (processing_error_500 failArtifact cexRecord "boom" (.ok failArtifact)
    initialState rfl rfl).2 rfl rfl

/-- Claim C6 counterexample: with the artifact file missing, the very
handling of the first qualifying POST /predict request is where the load
failure surfaces - load_artifact is called during request handling and its
exception escapes the handler - contradicting that the failure occurs
outside request handling. -/
theorem load_failure_in_request_cex :
    predictHandler (.error "FileNotFoundError: model.bin") initialState
        (some cexRecord) =
      ⟨.exception "FileNotFoundError: model.bin", initialState,
        true, false, false⟩ ∧
    (predictHandler (.error "FileNotFoundError: model.bin") initialState
        (some cexRecord)).loadAttempted ≠ false := by
  refine ⟨rfl, ?_⟩
  simp [predictHandler, cexRecord, pyTruthy, initialState]

/-- Claim C6 (amended): artifact loading is lazy and happens inside the
prediction handler: on a qualifying request with an empty cache, a load
failure surfaces during that request's handling as an exception escaping
the handler uncaught - the handler's try/except does not catch it and does
not turn it into the handler's JSON error response - the cache stays
unloaded, and the next qualifying request attempts the load again. -/
theorem lazy_load_failure_in_handler (s : ServerState) (d : JObj) (msg : String)
    (hs : s.cached = none) (hd : pyTruthy d = true) :
    predictHandler (.error msg) s (some d) =
      ⟨.exception msg, s, true, false, false⟩ ∧
    (∀ a : Artifact, (predictHandler (.ok a) s (some d)).loadAttempted = true) := by
  obtain ⟨c⟩ := s
  simp only at hs
  subst hs
  constructor
  · simp only [predictHandler, hd, Bool.true_eq_false, if_false]
  · intro a
    simp only [predictHandler, hd, Bool.true_eq_false, if_false]

/-- Witness for C6 (amended) at a concrete failing load. -/
theorem lazy_load_failure_in_handler_witness :
    predictHandler (.error "FileNotFoundError: model.bin") initialState
        (some cexRecord) =
      ⟨.exception "FileNotFoundError: model.bin", initialState,
        true, false, false⟩ :=
  (lazy_load_failure_in_handler initialState cexRecord
    "FileNotFoundError: model.bin" rfl rfl).1

/-- Claim C8: every successful (status 200) response of the predict handler
has exactly the two fields probability and prediction, in that order, where
probability is the model's positive-class probability rounded to 4 decimal
places, prediction is the thresholded label in 0,1, and the artifact used is
the cached one or the one the lazy load just produced. -/
theorem success_response_shape (lr : Except String Artifact) (s : ServerState)
    (dOpt : Option JObj) (body : JObj)
    (h : (predictHandler lr s dOpt).outcome = .response 200 body) :
    ∃ d art q, dOpt = some d ∧
      (s.cached = some art ∨ (s.cached = none ∧ lr = .ok art)) ∧
      pipelineProb art d = .ok q ∧
      body = [("probability", JVal.jnum (round4 q)),
              ("prediction", JVal.jint (if 1/2 ≤ q then 1 else 0))] ∧
      ((if 1/2 ≤ q then (1 : ℤ) else 0) = 0 ∨
        (if 1/2 ≤ q then (1 : ℤ) else 0) = 1) := by
  cases dOpt with
  | none => simp [predictHandler] at h
  | some d =>
      by_cases hT : pyTruthy d = true
      · obtain ⟨c⟩ := s
        cases c with
        | some art =>
            simp only [predictHandler, hT, Bool.true_eq_false, if_false] at h
            unfold scoreRequest at h
            cases hp : pipelineProb art d with
            | error e =>
                rw [hp] at h
                simp at h
            | ok q =>
                rw [hp] at h
                injection h with h1 h2
                refine ⟨d, art, q, rfl, Or.inl rfl, hp, h2.symm, ?_⟩
                by_cases hc : 1/2 ≤ q
                · rw [if_pos hc]
                  exact Or.inr rfl
                · rw [if_neg hc]
                  exact Or.inl rfl
        | none =>
            cases lr with
            | error msg =>
                simp only [predictHandler, hT, Bool.true_eq_false, if_false] at h
                cases h
            | ok art =>
                simp only [predictHandler, hT, Bool.true_eq_false, if_false] at h
                unfold scoreRequest at h
                cases hp : pipelineProb art d with
                | error e =>
                    rw [hp] at h
                    simp at h
                | ok q =>
                    rw [hp] at h
                    injection h with h1 h2
                    refine ⟨d, art, q, rfl, Or.inr ⟨rfl, rfl⟩, hp, h2.symm, ?_⟩
                    by_cases hc : 1/2 ≤ q
                    · rw [if_pos hc]
                      exact Or.inr rfl
                    · rw [if_neg hc]
                      exact Or.inl rfl
      · have hF : pyTruthy d = false := by
          revert hT
          cases pyTruthy d <;> simp
        simp [predictHandler, hF] at h

/-- Witness for C8 at a concrete successful request. -/
theorem success_response_shape_witness :
    ∃ d art q, (some cexRecord : Option JObj) = some d ∧
      (loadedState.cached = some art ∨
        (loadedState.cached = none ∧
          (Except.ok cexArtifact : Except String Artifact) = .ok art)) ∧
      pipelineProb art d = .ok q ∧
      [("probability", JVal.jnum (1/2)), ("prediction", JVal.jint 0)] =
        [("probability", JVal.jnum (round4 q)),
         ("prediction", JVal.jint (if 1/2 ≤ q then 1 else 0))] ∧
      ((if 1/2 ≤ q then (1 : ℤ) else 0) = 0 ∨
        (if 1/2 ≤ q then (1 : ℤ) else 0) = 1) :=
  success_response_shape (.ok cexArtifact) loadedState (some cexRecord)
    [("probability", JVal.jnum (1/2)), ("prediction", JVal.jint 0)]
    (by
      simp only [predictHandler, cexRecord, pyTruthy, loadedState, scoreRequest,
        pipelineProb, cexArtifact]
      norm_num [round4, pyRound])

/-- Claim C10: against a fixed artifact, the HTTP handler (on a state whose
cache holds that artifact) and the standalone predict agree: whenever the
standalone predict returns a result, the handler's successful response
carries the same prediction label and carries the standalone probability
rounded to 4 decimal places. -/
theorem serve_refines_standalone (art : Artifact) (d : JObj) (s : ServerState)
    (lr : Except String Artifact) (r : PredictResult)
    (hs : s.cached = some art) (hd : pyTruthy d = true)
    (h : predictStandalone (.ok art) d = .ok r) :
    (predictHandler lr s (some d)).outcome =
      .response 200 [("probability", JVal.jnum (round4 r.probability)),
                     ("prediction", JVal.jint r.prediction)] := by
  obtain ⟨c⟩ := s
  simp only at hs
  subst hs
  simp only [predictHandler, hd, Bool.true_eq_false, if_false]
  unfold predictStandalone at h
  dsimp only at h
  cases hp : pipelineProb art d with
  | error e =>
      rw [hp] at h
      cases h
  | ok q =>
      rw [hp] at h
      injection h with h'
      subst h'
      simp only [scoreRequest, hp]

/-- Witness for C10 at the concrete artifact and record. -/
theorem serve_refines_standalone_witness :
    (predictHandler (.ok cexArtifact) loadedState (some cexRecord)).outcome =
      .response 200
        [("probability",
          JVal.jnum (round4 (⟨49996/100000, 0⟩ : PredictResult).probability)),
         ("prediction", JVal.jint (⟨49996/100000, 0⟩ : PredictResult).prediction)] :=
  serve_refines_standalone cexArtifact cexRecord loadedState (.ok cexArtifact)
    ⟨49996/100000, 0⟩ rfl rfl
    (by norm_num [predictStandalone, pipelineProb, cexArtifact])

/-- A step taken in a loaded state leaves the state untouched and never
calls load_artifact. -/
theorem stepServer_loaded (lr : Except String Artifact) (a : Artifact)
    (r : Request) :
    (stepServer lr ⟨some a⟩ r).state' = ⟨some a⟩ ∧
    (stepServer lr ⟨some a⟩ r).loadAttempted = false ∧
    (stepServer lr ⟨some a⟩ r).loadSucceeded = false := by
  cases r with
  | getRoot => exact ⟨rfl, rfl, rfl⟩
  | getHealth => exact ⟨rfl, rfl, rfl⟩
  | postPredict body =>
      cases body with
      | none => exact ⟨rfl, rfl, rfl⟩
      | some d =>
          unfold stepServer predictHandler
          dsimp only
          split
          · exact ⟨rfl, rfl, rfl⟩
          · exact ⟨rfl, rfl, rfl⟩

/-- A non-qualifying request (anything but POST /predict with a truthy
payload) leaves any state untouched and never calls load_artifact. -/
theorem stepServer_nonqualifying (lr : Except String Artifact)
    (s : ServerState) (r : Request) (h : qualifying r = false) :
    (stepServer lr s r).state' = s ∧
    (stepServer lr s r).loadAttempted = false ∧
    (stepServer lr s r).loadSucceeded = false := by
  cases r with
  | getRoot => exact ⟨rfl, rfl, rfl⟩
  | getHealth => exact ⟨rfl, rfl, rfl⟩
  | postPredict body =>
      cases body with
      | none => exact ⟨rfl, rfl, rfl⟩
      | some d =>
          have hF : pyTruthy d = false := by simpa [qualifying] using h
          unfold stepServer predictHandler
          dsimp only
          rw [if_pos hF]
          exact ⟨rfl, rfl, rfl⟩

/-- The first qualifying request in the unloaded state, with the artifact
loadable: the load runs, succeeds, and the trace scores the payload. -/
theorem stepServer_first_load (a : Artifact) (d : JObj)
    (hT : pyTruthy d = true) :
    stepServer (.ok a) initialState (.postPredict (some d)) =
      ⟨scoreRequest a d, ⟨some a⟩, true, true, true⟩ := by
  unfold stepServer predictHandler initialState
  dsimp only
  rw [if_neg (by simp [hT])]

/-- Running any request sequence from a loaded state: the state never
changes and load_artifact is never called. -/
theorem runServer_loaded (steps : List Step) (a : Artifact) :
    (runServer ⟨some a⟩ steps).2 = ⟨some a⟩ ∧
    ∀ t ∈ (runServer ⟨some a⟩ steps).1,
      t.state' = ⟨some a⟩ ∧ t.loadAttempted = false ∧ t.loadSucceeded = false := by
  induction steps with
  | nil => exact ⟨rfl, by intro t ht; cases ht⟩
  | cons p rest ih =>
      obtain ⟨h1, h2, h3⟩ := stepServer_loaded p.1 a p.2
      obtain ⟨g1, g2⟩ := ih
      simp only [runServer]
      rw [h1]
      refine ⟨g1, ?_⟩
      intro t ht
      simp only [List.mem_cons] at ht
      rcases ht with rfl | ht
      · exact ⟨h1, h2, h3⟩
      · exact g2 t ht

/-- Running a sequence of non-qualifying requests from any state: the state
never changes and load_artifact is never called. -/
theorem runServer_nonqualifying (steps : List Step) (s : ServerState)
    (h : ∀ p ∈ steps, qualifying p.2 = false) :
    (runServer s steps).2 = s ∧
    ∀ t ∈ (runServer s steps).1,
      t.state' = s ∧ t.loadAttempted = false ∧ t.loadSucceeded = false := by
  induction steps with
  | nil => exact ⟨rfl, by intro t ht; cases ht⟩
  | cons p rest ih =>
      obtain ⟨h1, h2, h3⟩ :=
        stepServer_nonqualifying p.1 s p.2 (h p (List.mem_cons_self p rest))
      obtain ⟨g1, g2⟩ := ih fun p hp => h p (List.mem_cons_of_mem _ hp)
      simp only [runServer]
      rw [h1]
      refine ⟨g1, ?_⟩
      intro t ht
      simp only [List.mem_cons] at ht
      rcases ht with rfl | ht
      · exact ⟨h1, h2, h3⟩
      · exact g2 t ht

/-- Handling a concatenated request sequence is handling the first part,
then the second from the state the first part left behind. -/
theorem runServer_append (s : ServerState) (l₁ l₂ : List Step) :
    runServer s (l₁ ++ l₂) =
      ((runServer s l₁).1 ++ (runServer (runServer s l₁).2 l₂).1,
        (runServer (runServer s l₁).2 l₂).2) := by
  induction l₁ generalizing s with
  | nil => simp [runServer]
  | cons p rest ih =>
      simp only [List.cons_append, runServer]
      rw [show rest.append l₂ = rest ++ l₂ from rfl, ih]

/-- Claim C5: over any request sequence of one serving process starting
unloaded, in an environment where the artifact file consistently loads to
a fixed artifact, the artifact is loaded exactly once across the whole
sequence, the unloaded-to-loaded transition happens precisely on the first
request that reaches the load step (earlier requests, being non-qualifying,
leave the state unloaded and never call load_artifact), and every later
request runs loaded, never reloading or replacing the cached artifact. -/
theorem artifact_loaded_at_most_once (pre post : List Step) (q : Step)
    (a : Artifact)
    (hok : ∀ p ∈ pre ++ q :: post, p.1 = Except.ok a)
    (hpre : ∀ p ∈ pre, qualifying p.2 = false)
    (hq : qualifying q.2 = true) :
    ((runServer initialState (pre ++ q :: post)).1.countP
        fun t => t.loadSucceeded) = 1 ∧
    (∀ t ∈ (runServer initialState pre).1,
        t.loadAttempted = false ∧ t.state' = initialState) ∧
    ((stepServer q.1 initialState q.2).loadAttempted = true ∧
      (stepServer q.1 initialState q.2).loadSucceeded = true ∧
      (stepServer q.1 initialState q.2).state' = ⟨some a⟩) ∧
    (∀ t ∈ (runServer (⟨some a⟩ : ServerState) post).1,
        t.loadAttempted = false ∧ t.state'.cached = some a) ∧
    (runServer initialState (pre ++ q :: post)).2.cached = some a := by
  have hq1 : q.1 = Except.ok a := hok q (by simp)
  obtain ⟨d, hr, hT⟩ :
      ∃ d, q.2 = Request.postPredict (some d) ∧ pyTruthy d = true := by
    rcases q with ⟨lr, r⟩
    cases r with
    | getRoot => simp [qualifying] at hq
    | getHealth => simp [qualifying] at hq
    | postPredict body =>
        cases body with
        | none => simp [qualifying] at hq
        | some d => exact ⟨d, rfl, by simpa [qualifying] using hq⟩
  have hfirst : stepServer q.1 initialState q.2 =
      ⟨scoreRequest a d, ⟨some a⟩, true, true, true⟩ := by
    rw [hq1, hr]
    exact stepServer_first_load a d hT
  obtain ⟨hpre2, hpre1⟩ := runServer_nonqualifying pre initialState hpre
  obtain ⟨hpost2, hpost1⟩ := runServer_loaded post a
  have hdec : runServer initialState (pre ++ q :: post) =
      ((runServer initialState pre).1 ++
        stepServer q.1 initialState q.2 ::
          (runServer (⟨some a⟩ : ServerState) post).1,
        (runServer (⟨some a⟩ : ServerState) post).2) := by
    rw [runServer_append, hpre2]
    simp only [runServer]
    rw [hfirst]
  refine ⟨?_, fun t ht => ⟨(hpre1 t ht).2.1, (hpre1 t ht).1⟩, ?_, ?_, ?_⟩
  · rw [hdec]
    simp only [List.countP_append, List.countP_cons]
    have c0 : ((runServer initialState pre).1.countP
        fun t => t.loadSucceeded) = 0 :=
      List.countP_eq_zero.mpr fun t ht => by simp [(hpre1 t ht).2.2]
    have c2 : (((runServer (⟨some a⟩ : ServerState) post).1).countP
        fun t => t.loadSucceeded) = 0 :=
      List.countP_eq_zero.mpr fun t ht => by simp [(hpost1 t ht).2.2]
    rw [c0, c2, hfirst]
    rfl
  · rw [hfirst]
    exact ⟨rfl, rfl, rfl⟩
  · intro t ht
    refine ⟨(hpost1 t ht).2.1, ?_⟩
    rw [(hpost1 t ht).1]
  · rw [hdec]
    rw [hpost2]

/-- Witness for C5: a health request, then the first prediction request,
then another health request, all in an environment loading cexArtifact. -/
theorem artifact_loaded_at_most_once_witness :
    ((runServer initialState
        ([(Except.ok cexArtifact, Request.getHealth)] ++
          (Except.ok cexArtifact, Request.postPredict (some cexRecord)) ::
            [(Except.ok cexArtifact, Request.getHealth)])).1.countP
      fun t => t.loadSucceeded) = 1 :=
  (artifact_loaded_at_most_once [(Except.ok cexArtifact, Request.getHealth)]
    [(Except.ok cexArtifact, Request.getHealth)]
    (Except.ok cexArtifact, Request.postPredict (some cexRecord)) cexArtifact
    (by
      intro p hp
      simp only [List.cons_append, List.nil_append, List.mem_cons,
        List.not_mem_nil, or_false] at hp
      rcases hp with rfl | rfl | rfl <;> rfl)
    (by
      intro p hp
      simp only [List.mem_singleton] at hp
      subst hp
      rfl)
    rfl).1

end MentalHealth
